import Mathlib

/-!
# Verification of the RaspberryPiTrainSimulator frame-replay scheduler

Shallow embedding of the repository's core modules:

* `hex_parser.py` — turns the text of a hex capture file into an ordered
  list of `(payload bytes, nominal delay ms)` pairs;
* `sender_controller.py` — the pacing scheduler: per-class minimum-interval
  delay computation, one-cycle execution (materialized and streaming
  variants), the continuous background loop, and the control operations
  (`load_hex_file`, `start_sending`, `stop_sending`, `pause_sending`,
  `resume_sending`).

Modelling conventions:

* Python `bytes` payloads are `List Nat` (one entry per byte).
* A file is its list of text lines (`List String`); the generator's
  line-by-line read over the open file is recursion over that list.
  File-system errors (`FileNotFoundError` and friends) are outside the
  pure model.
* `time.time()` values are exact rationals (`ℚ`).  Every read of the
  clock is an input supplied by the environment, as are the transport
  result of `send_data` (a `Bool` — `rs485_comm.send_data` catches all
  exceptions and returns a boolean) and the values of the concurrently
  mutated `is_running` / `is_paused` flags observed at each check point.
* The observer callbacks (`on_progress_callback`, `on_data_sent_callback`,
  `on_cycle_complete_callback`) are modelled as emitted trace events;
  a callback may raise, which is the only exception source inside a
  cycle body.  `time.sleep(d)` is recorded as a `slept` event.
* The continuous send loop runs on fuel counting loop iterations; the
  thread dying from an uncaught exception is a `Bool` crash flag.
-/

set_option autoImplicit false

namespace TrainSim

/-! ## hex_parser.py -/

/-- Python whitespace as used by `str.strip()`. -/
def is_py_space (c : Char) : Bool :=
  c = ' ' || c = '\t' || c = '\n' || c = '\r' || c = '\x0b' || c = '\x0c'

/-- Python `line.strip()`. -/
def py_strip (s : String) : String :=
  String.mk (((s.data.dropWhile is_py_space).reverse.dropWhile is_py_space).reverse)

/-- The character class kept by `re.sub(r'[^0-9A-Fa-f]', '', line)`. -/
def is_hex_digit_char (c : Char) : Bool :=
  ('0' ≤ c && c ≤ '9') || ('A' ≤ c && c ≤ 'F') || ('a' ≤ c && c ≤ 'f')

/-- Value of one hex digit (only applied to characters passing
`is_hex_digit_char`). -/
def hex_val (c : Char) : Nat :=
  if '0' ≤ c && c ≤ '9' then c.toNat - '0'.toNat
  else if 'A' ≤ c && c ≤ 'F' then c.toNat - 'A'.toNat + 10
  else if 'a' ≤ c && c ≤ 'f' then c.toNat - 'a'.toNat + 10
  else 0

/-- `bytes.fromhex` on an even-length string of hex digits: consecutive
digit pairs become bytes. -/
def hex_pairs : List Char → List Nat
  | c1 :: c2 :: rest => (16 * hex_val c1 + hex_val c2) :: hex_pairs rest
  | _ => []

/-- `HexParser._parse_hex_line`: strip every character outside
`0-9A-Fa-f`; an odd number of remaining digits gives `None`; otherwise
decode digit pairs.  (After the strip, `bytes.fromhex` cannot raise, so
the `except ValueError` branch of the source is unreachable.) -/
def parse_hex_line (line : String) : Option (List Nat) :=
  let hex_string := line.data.filter is_hex_digit_char
  if hex_string.length % 2 ≠ 0 then none
  else some (hex_pairs hex_string)

/-- Header bytes `60 01 13 20`. -/
def header_60_01_13_20 : List Nat := [0x60, 0x01, 0x13, 0x20]

/-- Header bytes `60 01 13 30`. -/
def header_60_01_13_30 : List Nat := [0x60, 0x01, 0x13, 0x30]

/-- `HexParser._get_delay_time`: the nominal delay derived from the first
four payload bytes. -/
def get_delay_time (hex_bytes : List Nat) : Nat :=
  if hex_bytes.length < 4 then 10
  else
    let header := hex_bytes.take 4
    if header = header_60_01_13_20 then 1000
    else if header = header_60_01_13_30 then 10
    else 10

/-- The body shared by both yield sites of `parse_file_generator`
(lines 44-48 and 55-59 of `hex_parser.py`): parse the accumulated block;
`if hex_bytes:` is false for Python `None` and for the empty `bytes`, in
which case nothing is yielded. -/
def emit_block (block : String) : List (List Nat × Nat) :=
  match parse_hex_line block with
  | none => []
  | some hex_bytes =>
      if hex_bytes = [] then []
      else [(hex_bytes, get_delay_time hex_bytes)]

/-- The loop of `HexParser.parse_file_generator`: `block` is the
accumulated `current_hex_block`.  A blank (post-strip) line closes the
block; non-blank lines are appended with a single joining space; the
final block is flushed at end of file. -/
def parse_gen_aux : List String → String → List (List Nat × Nat)
  | [], block => if block = "" then [] else emit_block block
  | l :: ls, block =>
      let line := py_strip l
      if line = "" then
        (if block = "" then [] else emit_block block) ++ parse_gen_aux ls ""
      else
        parse_gen_aux ls (if block = "" then line else block ++ " " ++ line)

/-- `HexParser.parse_file_generator` on the file's lines. -/
def parse_file_generator (lines : List String) : List (List Nat × Nat) :=
  parse_gen_aux lines ""

/-- `HexParser.parse_file`: starts from an empty `hex_data` list and
appends every pair produced by the generator. -/
def parse_file (lines : List String) : List (List Nat × Nat) :=
  (parse_file_generator lines).foldl (fun acc x => acc ++ [x]) []

/-- The blank-line-delimited blocks that `parse_file_generator` forms,
exposed as data so that per-block behavior can be stated. -/
def blocks_aux : List String → String → List String
  | [], block => if block = "" then [] else [block]
  | l :: ls, block =>
      let line := py_strip l
      if line = "" then
        (if block = "" then [] else [block]) ++ blocks_aux ls ""
      else
        blocks_aux ls (if block = "" then line else block ++ " " ++ line)

/-- The blocks of a file. -/
def blocks (lines : List String) : List String := blocks_aux lines ""

/-! ## sender_controller.py — state and environment -/

/-- The mutable fields of `SenderController` (`__init__`, lines 21-34).
`file_lines` is the content of the file named by `hex_filename`
(the model's stand-in for the file system; the input file is not
expected to change mid-run). -/
structure SenderState where
  hex_data : List (List Nat × Nat)
  hex_filename : String
  file_lines : List String
  use_memory_efficient : Bool
  current_index : Nat
  cycle_count : Nat
  is_running : Bool
  is_paused : Bool
  total_sent : Nat
  total_data_count : Nat
  last_60_01_13_20_time : ℚ
  last_60_01_13_30_time : ℚ
deriving Repr, DecidableEq

/-- `SenderController.__init__`: fresh controller state. -/
def initState : SenderState :=
  { hex_data := [], hex_filename := "", file_lines := [],
    use_memory_efficient := false, current_index := 0, cycle_count := 0,
    is_running := false, is_paused := false, total_sent := 0,
    total_data_count := 0, last_60_01_13_20_time := 0,
    last_60_01_13_30_time := 0 }

/-- External inputs consumed while processing one frame of a cycle:
the `is_running` / `is_paused` flag values observed at the loop check
(these fields are mutated concurrently by the control operations), the
clock reads, the transport outcome, and whether either observer callback
raises an exception. -/
structure FrameEnv where
  running : Bool
  paused : Bool
  now : ℚ
  endTime : ℚ
  sendOk : Bool
  raiseProgress : Bool
  raiseDataSent : Bool
deriving Repr

/-- Observable actions of a cycle: the three observer callbacks of the
controller plus the executed sleep. -/
inductive Event where
  | progress (index total cycle : Nat) (frame : List Nat)
  | slept (ms : ℚ)
  | dataSent (frame : List Nat) (success : Bool)
  | cycleComplete (cycle : Nat)
deriving Repr, DecidableEq

/-! ## sender_controller.py — per-frame pacing -/

/-- The `calculated_delay` computation (lines 219-246, duplicated
verbatim at lines 315-342 of the streaming variant): class `60 01 13 20`
pays the remaining deficit toward a 1000 ms interval since the last
class-`20` send (0 on first send, signalled by a zero timestamp); class
`60 01 13 30` likewise with a 10 ms interval; every other frame pays a
flat 10 ms. -/
def calculated_delay (hex_bytes : List Nat) (now l20 l30 : ℚ) : ℚ :=
  if hex_bytes.take 4 = header_60_01_13_20 then
    if l20 > 0 then
      let elapsed_since_last := (now - l20) * 1000
      if elapsed_since_last < 1000 then 1000 - elapsed_since_last else 0
    else 0
  else if hex_bytes.take 4 = header_60_01_13_30 then
    if l30 > 0 then
      let elapsed_since_last := (now - l30) * 1000
      if elapsed_since_last < 10 then 10 - elapsed_since_last else 0
    else 0
  else 10

/-- Lines 268-271: after the transport attempt, the completion timestamp
becomes the new last-send time of the frame's class (headers `20` and
`30` only), regardless of the send outcome. -/
def record_last_send (hex_bytes : List Nat) (t : ℚ) (s : SenderState) :
    SenderState :=
  if hex_bytes.take 4 = header_60_01_13_20 then
    { s with last_60_01_13_20_time := t }
  else if hex_bytes.take 4 = header_60_01_13_30 then
    { s with last_60_01_13_30_time := t }
  else s

/-- The state change of one fully executed frame (lines 205, 268-274):
`current_index` becomes the 1-based position, the class timestamp is
recorded, and `total_sent` is incremented exactly on transport success. -/
def frame_step_state (e : FrameEnv) (i : Nat) (hex_bytes : List Nat)
    (s : SenderState) : SenderState :=
  let s1 := { s with current_index := i + 1 }
  let s2 := record_last_send hex_bytes e.endTime s1
  if e.sendOk then { s2 with total_sent := s2.total_sent + 1 } else s2

/-- The per-frame loop body shared verbatim by
`_send_one_cycle_traditional` (lines 201-278) and
`_send_one_cycle_memory_efficient` (lines 296-374).  `env i` supplies
the external inputs for the frame at 0-based position `i`.  Returns the
state at exit, the emitted events, and whether an observer callback
raised (`true` = the loop body was abandoned by an exception). -/
def run_frames (env : Nat → FrameEnv) :
    List (List Nat × Nat) → Nat → SenderState → SenderState × List Event × Bool
  | [], _, s => (s, [], false)
  | (hex_bytes, _delay_ms) :: rest, i, s =>
    let e := env i
    if !e.running || e.paused then (s, [], false)
    else
      let evProg := Event.progress (i + 1) s.total_data_count s.cycle_count hex_bytes
      if e.raiseProgress then ({ s with current_index := i + 1 }, [evProg], true)
      else
        let d := calculated_delay hex_bytes e.now
          s.last_60_01_13_20_time s.last_60_01_13_30_time
        let sleepEvs := if 0 < d then [Event.slept d] else []
        let s' := frame_step_state e i hex_bytes s
        if e.raiseDataSent then
          (s', evProg :: sleepEvs ++ [Event.dataSent hex_bytes e.sendOk], true)
        else
          let r := run_frames env rest (i + 1) s'
          (r.1, evProg :: sleepEvs ++ Event.dataSent hex_bytes e.sendOk :: r.2.1,
           r.2.2)

/-! ## sender_controller.py — cycles and the continuous loop -/

/-- `SenderController._send_one_cycle_traditional` (lines 192-281): no
exception handler, so a raise inside the loop body propagates to the
caller (crash flag `true`) and the trailing `current_index = 0` reset is
skipped. -/
def send_one_cycle_traditional (env : Nat → FrameEnv) (s : SenderState) :
    SenderState × List Event × Bool :=
  if s.hex_data = [] then (s, [], false)
  else
    let s1 := { s with cycle_count := s.cycle_count + 1 }
    let r := run_frames env s1.hex_data 0 s1
    if r.2.2 then r
    else ({ r.1 with current_index := 0 }, r.2.1, false)

/-- `SenderController._send_one_cycle_memory_efficient` (lines 283-380):
re-derives the frames from the file on every call, and the whole body
sits inside `try/except`, so an exception aborts the rest of the cycle
(including the `current_index = 0` reset) but is swallowed. -/
def send_one_cycle_memory_efficient (env : Nat → FrameEnv) (s : SenderState) :
    SenderState × List Event :=
  if s.hex_filename = "" then (s, [])
  else
    let s1 := { s with cycle_count := s.cycle_count + 1 }
    let r := run_frames env (parse_file_generator s.file_lines) 0 s1
    if r.2.2 then (r.1, r.2.1)
    else ({ r.1 with current_index := 0 }, r.2.1)

/-- `SenderController._send_one_cycle` (lines 183-190): mode dispatch. -/
def send_one_cycle (env : Nat → FrameEnv) (s : SenderState) :
    SenderState × List Event × Bool :=
  if s.use_memory_efficient then
    let r := send_one_cycle_memory_efficient env s
    (r.1, r.2, false)
  else send_one_cycle_traditional env s

/-- External inputs of the continuous loop: the `is_running` /
`is_paused` pair observed at the top of loop iteration `k`, and the
frame-level inputs of the cycle started at iteration `k`. -/
structure LoopEnv where
  flags : Nat → Bool × Bool
  frameEnv : Nat → Nat → FrameEnv

/-- `SenderController._continuous_send_loop` (lines 168-181), with fuel
counting loop iterations.  A paused iteration only sleeps 100 ms; an
un-paused iteration runs one cycle and then fires the cycle-complete
callback; an exception escaping the traditional cycle kills the loop
thread (crash flag `true`). -/
def continuous_send_loop (env : LoopEnv) :
    Nat → Nat → SenderState → SenderState × List Event × Bool
  | 0, _, s => (s, [], false)
  | fuel + 1, k, s =>
    if (env.flags k).1 = false then (s, [], false)
    else if (env.flags k).2 = true then continuous_send_loop env fuel (k + 1) s
    else
      let r := send_one_cycle (env.frameEnv k) s
      if r.2.2 then r
      else
        let r2 := continuous_send_loop env fuel (k + 1) r.1
        (r2.1, r.2.1 ++ Event.cycleComplete r.1.cycle_count :: r2.2.1, r2.2.2)

/-! ## sender_controller.py — control operations -/

/-- The two precondition failures of `start_sending`. -/
inductive StartErr where
  | notLoaded
  | notConnected
deriving Repr, DecidableEq

/-- `SenderController.start_sending` (lines 118-147).  `connected` is
the transport's `is_connected`.  In the continuous case the background
thread is launched (modelled separately by `continuous_send_loop`); in
the one-shot case the cycle runs synchronously and `is_running` is
cleared afterwards — unless the cycle raised, in which case the
exception propagates before the clear. -/
def start_sending (s : SenderState) (connected continuous : Bool)
    (env : Nat → FrameEnv) : SenderState × List Event × Option StartErr :=
  if s.hex_data = [] ∧ s.use_memory_efficient = false then
    (s, [], some .notLoaded)
  else if s.use_memory_efficient = true ∧ s.total_data_count = 0 then
    (s, [], some .notLoaded)
  else if connected = false then (s, [], some .notConnected)
  else
    let s1 := { s with is_running := true, is_paused := false }
    if continuous then (s1, [], none)
    else
      let r := send_one_cycle env s1
      if r.2.2 then (r.1, r.2.1, none)
      else ({ r.1 with is_running := false }, r.2.1, none)

/-- `SenderController.stop_sending` (lines 149-154). -/
def stop_sending (s : SenderState) : SenderState :=
  { s with is_running := false, is_paused := false }

/-- `SenderController.pause_sending` (lines 156-160). -/
def pause_sending (s : SenderState) : SenderState :=
  { s with is_paused := true }

/-- `SenderController.resume_sending` (lines 162-166). -/
def resume_sending (s : SenderState) : SenderState :=
  { s with is_paused := false }

/-- `SenderController.load_hex_file` (lines 41-89): records the file,
resets `current_index` / `cycle_count` / `total_sent`, then either
counts the generator's output (memory-efficient) or materializes it;
zero parsed frames make the load return `false`. -/
def load_hex_file (s : SenderState) (filename : String)
    (contents : List String) (memory_efficient : Bool) : SenderState × Bool :=
  let s1 := { s with hex_filename := filename, file_lines := contents,
                     use_memory_efficient := memory_efficient,
                     current_index := 0, cycle_count := 0, total_sent := 0 }
  if memory_efficient then
    let s2 := { s1 with hex_data := [],
                        total_data_count := (parse_file_generator contents).length }
    if s2.total_data_count = 0 then (s2, false) else (s2, true)
  else
    let dat := parse_file contents
    let s2 := { s1 with hex_data := dat, total_data_count := dat.length }
    if dat = [] then (s2, false) else (s2, true)

/-! ## Helper lemmas — parser -/

theorem foldl_push_eq {α : Type} (l acc : List α) :
    l.foldl (fun a x => a ++ [x]) acc = acc ++ l := by
  induction l generalizing acc with
  | nil => simp
  | cons x xs ih => simp [List.foldl, ih]

/-- Materializing the generator with repeated `append` reproduces the
generator's sequence. -/
theorem parse_file_eq_generator (lines : List String) :
    parse_file lines = parse_file_generator lines := by
  unfold parse_file
  simp [foldl_push_eq]

/-- The generator is the per-block emission applied to the
blank-line-delimited blocks, in order. -/
theorem parse_gen_aux_eq_blocks (ls : List String) (block : String) :
    parse_gen_aux ls block = (blocks_aux ls block).flatMap emit_block := by
  induction ls generalizing block with
  | nil =>
    by_cases h : block = "" <;> simp [parse_gen_aux, blocks_aux, h]
  | cons l ls ih =>
    by_cases hline : py_strip l = ""
    · by_cases h : block = "" <;>
        simp [parse_gen_aux, blocks_aux, hline, h, ih]
    · by_cases h : block = "" <;>
        simp [parse_gen_aux, blocks_aux, hline, h, ih]

/-- A nonempty even-length list of digits decodes to a nonempty byte
list. -/
theorem hex_pairs_ne_nil (ds : List Char) (hne : ds ≠ [])
    (heven : ds.length % 2 = 0) : hex_pairs ds ≠ [] := by
  match ds with
  | [] => exact absurd rfl hne
  | [c] => simp at heven
  | c1 :: c2 :: rest => simp [hex_pairs]

/-! ## C3 -/

/-- C3: the nominal delay is a pure function of the first four payload
bytes: exactly `60 01 13 20` gives 1000 ms, exactly `60 01 13 30` gives
10 ms, any other four-byte header or a payload shorter than four bytes
gives the default 10 ms; and any two payloads sharing their first four
bytes get the same delay. -/
theorem c3_delay_class (hex_bytes other : List Nat) :
    (hex_bytes.take 4 = header_60_01_13_20 → get_delay_time hex_bytes = 1000) ∧
    (hex_bytes.take 4 = header_60_01_13_30 → get_delay_time hex_bytes = 10) ∧
    (hex_bytes.take 4 ≠ header_60_01_13_20 →
      hex_bytes.take 4 ≠ header_60_01_13_30 → get_delay_time hex_bytes = 10) ∧
    (hex_bytes.length < 4 → get_delay_time hex_bytes = 10) ∧
    (hex_bytes.take 4 = other.take 4 →
      get_delay_time hex_bytes = get_delay_time other) := by
  have hlen20 : header_60_01_13_20.length = 4 := by decide
  have hlen30 : header_60_01_13_30.length = 4 := by decide
  refine ⟨?_, ?_, ?_, ?_, ?_⟩
  · intro h
    have hlen : (hex_bytes.take 4).length = 4 := by rw [h, hlen20]
    rw [List.length_take] at hlen
    have hge : ¬ hex_bytes.length < 4 := by omega
    simp [get_delay_time, hge, h]
  · intro h
    have hlen : (hex_bytes.take 4).length = 4 := by rw [h, hlen30]
    rw [List.length_take] at hlen
    have hge : ¬ hex_bytes.length < 4 := by omega
    have hne : header_60_01_13_30 ≠ header_60_01_13_20 := by decide
    simp [get_delay_time, hge, h, hne]
  · intro h20 h30
    by_cases hlt : hex_bytes.length < 4 <;>
      simp [get_delay_time, hlt, h20, h30]
  · intro hlt
    simp [get_delay_time, hlt]
  · intro h
    have hmin : min 4 hex_bytes.length = min 4 other.length := by
      rw [← List.length_take, ← List.length_take, h]
    by_cases hlt : hex_bytes.length < 4
    · have hlt2 : other.length < 4 := by omega
      simp [get_delay_time, hlt, hlt2]
    · have hlt2 : ¬ other.length < 4 := by omega
      simp [get_delay_time, hlt, hlt2, h]

/-- C3 witness: each case of `c3_delay_class` at concrete payloads. -/
theorem c3_delay_class_witness :
    get_delay_time [0x60, 0x01, 0x13, 0x20, 0x05] = 1000 ∧
    get_delay_time [0x60, 0x01, 0x13, 0x30] = 10 ∧
    get_delay_time [1, 2, 3, 4, 5] = 10 ∧
    get_delay_time [0x60] = 10 ∧
    get_delay_time [9, 9, 9, 9, 1] = get_delay_time [9, 9, 9, 9, 2] :=
  ⟨(c3_delay_class [0x60, 0x01, 0x13, 0x20, 0x05] []).1 (by decide),
   (c3_delay_class [0x60, 0x01, 0x13, 0x30] []).2.1 (by decide),
   (c3_delay_class [1, 2, 3, 4, 5] []).2.2.1 (by decide) (by decide),
   (c3_delay_class [0x60] []).2.2.2.1 (by decide),
   (c3_delay_class [9, 9, 9, 9, 1] [9, 9, 9, 9, 2]).2.2.2.2 (by decide)⟩

/-! ## C4 -/

/-- C4 counterexample: the single-line file `zz` forms one block whose
character strip leaves zero hex digits — an even count — yet the parse
emits no frame (`bytes.fromhex('')` is empty, and the generator's
`if hex_bytes:` check rejects the empty byte string), refuting the
claim that every block with an even number of hex digits yields exactly
one frame. -/
theorem c4_counterexample :
    blocks ["zz"] = ["zz"] ∧
    ("zz".data.filter is_hex_digit_char).length % 2 = 0 ∧
    parse_file_generator ["zz"] = [] := by decide

/-- C4 amended: the generator emits, block by block: for a block whose
strip leaves a *positive* even number of hex digits, exactly one frame
holding the byte decoding of those digits; for a block with an odd
digit count, no frame and no error; and also no frame for a block with
zero remaining digits. -/
theorem c4_block_emission (lines : List String) (block : String) :
    parse_file_generator lines = (blocks lines).flatMap emit_block ∧
    ((block.data.filter is_hex_digit_char).length % 2 = 0 →
      block.data.filter is_hex_digit_char ≠ [] →
      emit_block block =
        [(hex_pairs (block.data.filter is_hex_digit_char),
          get_delay_time (hex_pairs (block.data.filter is_hex_digit_char)))]) ∧
    ((block.data.filter is_hex_digit_char).length % 2 = 1 →
      emit_block block = []) ∧
    (block.data.filter is_hex_digit_char = [] → emit_block block = []) := by
  refine ⟨parse_gen_aux_eq_blocks lines "", ?_, ?_, ?_⟩
  · intro heven hne
    have hpairs := hex_pairs_ne_nil _ hne heven
    simp [emit_block, parse_hex_line, heven, hpairs]
  · intro hodd
    simp [emit_block, parse_hex_line, hodd]
  · intro hnil
    simp [emit_block, parse_hex_line, hnil, hex_pairs]

/-- C4 amended witness: `c4_block_emission` applied to a two-block file
and to blocks with two, three, and zero surviving hex digits. -/
theorem c4_block_emission_witness :
    parse_file_generator ["0A", "", "x"] =
      (blocks ["0A", "", "x"]).flatMap emit_block ∧
    emit_block "0A" = [([0x0A], 10)] ∧
    emit_block "0AB" = [] ∧
    emit_block "zz" = [] :=
  ⟨(c4_block_emission ["0A", "", "x"] "").1,
   (c4_block_emission [] "0A").2.1 (by decide) (by decide),
   (c4_block_emission [] "0AB").2.2.1 (by decide),
   (c4_block_emission [] "zz").2.2.2 (by decide)⟩

/-! ## C5 -/

/-- C5: the materialized traversal (`parse_file`) and the streaming
traversal (`parse_file_generator`) of the same input produce the same
ordered list of (payload, nominal delay) pairs; the streaming traversal
is a pure function of the file's lines, so every fresh traversal of
unchanged input reproduces the same sequence. -/
theorem c5_materialized_eq_streaming (lines : List String) :
    parse_file lines = parse_file_generator lines :=
  parse_file_eq_generator lines

/-! ## C2 -/

/-- C2: the wait computed before sending a frame is: for a `60 01 13 20`
frame, 0 when that class has never been sent (zero timestamp), otherwise
`max 0 (1000 − elapsed ms since the last class send)`; for a
`60 01 13 30` frame the same with a 10 ms interval; for any other frame
a flat 10 ms regardless of both timestamps. -/
theorem c2_computed_wait (hex_bytes : List Nat) (now l20 l30 : ℚ) :
    (hex_bytes.take 4 = header_60_01_13_20 → l20 = 0 →
      calculated_delay hex_bytes now l20 l30 = 0) ∧
    (hex_bytes.take 4 = header_60_01_13_20 → 0 < l20 →
      calculated_delay hex_bytes now l20 l30 =
        max 0 (1000 - (now - l20) * 1000)) ∧
    (hex_bytes.take 4 = header_60_01_13_30 → l30 = 0 →
      calculated_delay hex_bytes now l20 l30 = 0) ∧
    (hex_bytes.take 4 = header_60_01_13_30 → 0 < l30 →
      calculated_delay hex_bytes now l20 l30 =
        max 0 (10 - (now - l30) * 1000)) ∧
    (hex_bytes.take 4 ≠ header_60_01_13_20 →
      hex_bytes.take 4 ≠ header_60_01_13_30 →
      calculated_delay hex_bytes now l20 l30 = 10) := by
  have hne : header_60_01_13_30 ≠ header_60_01_13_20 := by decide
  refine ⟨?_, ?_, ?_, ?_, ?_⟩
  · intro h h0
    simp [calculated_delay, h, h0]
  · intro h h0
    by_cases hc : (now - l20) * 1000 < 1000
    · have : (0 : ℚ) ≤ 1000 - (now - l20) * 1000 := by linarith
      simp [calculated_delay, h, h0, hc, max_eq_right this]
    · have : 1000 - (now - l20) * 1000 ≤ (0 : ℚ) := by
        push_neg at hc; linarith
      simp [calculated_delay, h, h0, hc, max_eq_left this]
  · intro h h0
    simp [calculated_delay, h, h0, hne]
  · intro h h0
    by_cases hc : (now - l30) * 1000 < 10
    · have : (0 : ℚ) ≤ 10 - (now - l30) * 1000 := by linarith
      simp [calculated_delay, h, h0, hne, hc, max_eq_right this]
    · have : 10 - (now - l30) * 1000 ≤ (0 : ℚ) := by
        push_neg at hc; linarith
      simp [calculated_delay, h, h0, hne, hc, max_eq_left this]
  · intro h20 h30
    simp [calculated_delay, h20, h30]

/-- C2 witness: each case of `c2_computed_wait` at concrete timestamps
(a class-`20` frame 500 ms after its previous send, a class-`30` frame
500 ms after its previous send, and an unclassified frame). -/
theorem c2_computed_wait_witness :
    calculated_delay header_60_01_13_20 2 0 0 = 0 ∧
    calculated_delay header_60_01_13_20 2 (3/2) 0 =
      max 0 (1000 - (2 - 3/2) * 1000) ∧
    calculated_delay header_60_01_13_30 2 0 0 = 0 ∧
    calculated_delay header_60_01_13_30 2 0 (3/2) =
      max 0 (10 - (2 - 3/2) * 1000) ∧
    calculated_delay [1, 2, 3, 4] 2 5 5 = 10 :=
  ⟨(c2_computed_wait header_60_01_13_20 2 0 0).1 (by decide) rfl,
   (c2_computed_wait header_60_01_13_20 2 (3/2) 0).2.1 (by decide)
     (by norm_num),
   (c2_computed_wait header_60_01_13_30 2 0 0).2.2.1 (by decide) rfl,
   (c2_computed_wait header_60_01_13_30 2 0 (3/2)).2.2.2.1 (by decide)
     (by norm_num),
   (c2_computed_wait [1, 2, 3, 4] 2 5 5).2.2.2.2 (by decide) (by decide)⟩

/-! ## Helper lemmas — scheduler -/

/-- The per-frame state change never writes the mode, file, or cycle
counter fields, and never decreases `total_sent`. -/
theorem frame_step_state_cfg (e : FrameEnv) (i : Nat) (hex_bytes : List Nat)
    (s : SenderState) :
    (frame_step_state e i hex_bytes s).use_memory_efficient =
      s.use_memory_efficient ∧
    (frame_step_state e i hex_bytes s).hex_filename = s.hex_filename ∧
    (frame_step_state e i hex_bytes s).file_lines = s.file_lines ∧
    (frame_step_state e i hex_bytes s).hex_data = s.hex_data ∧
    (frame_step_state e i hex_bytes s).cycle_count = s.cycle_count ∧
    (frame_step_state e i hex_bytes s).total_data_count = s.total_data_count ∧
    s.total_sent ≤ (frame_step_state e i hex_bytes s).total_sent := by
  have hne : ¬(header_60_01_13_30 = header_60_01_13_20) := by decide
  cases hs : e.sendOk <;>
    by_cases h20 : hex_bytes.take 4 = header_60_01_13_20 <;>
    by_cases h30 : hex_bytes.take 4 = header_60_01_13_30 <;>
    simp [frame_step_state, record_last_send, hs, h20, h30, hne]

/-- The cycle body never writes the mode, file, or cycle counter fields,
and never decreases `total_sent`. -/
theorem run_frames_cfg (env : Nat → FrameEnv)
    (frames : List (List Nat × Nat)) (i : Nat) (s : SenderState) :
    (run_frames env frames i s).1.use_memory_efficient =
      s.use_memory_efficient ∧
    (run_frames env frames i s).1.hex_filename = s.hex_filename ∧
    (run_frames env frames i s).1.file_lines = s.file_lines ∧
    (run_frames env frames i s).1.hex_data = s.hex_data ∧
    (run_frames env frames i s).1.cycle_count = s.cycle_count ∧
    (run_frames env frames i s).1.total_data_count = s.total_data_count ∧
    s.total_sent ≤ (run_frames env frames i s).1.total_sent := by
  induction frames generalizing i s with
  | nil => simp [run_frames]
  | cons fr rest ih =>
    obtain ⟨bs, dm⟩ := fr
    obtain ⟨hf1, hf2, hf3, hf4, hf5, hf6, hf7⟩ :=
      frame_step_state_cfg (env i) i bs s
    obtain ⟨hr1, hr2, hr3, hr4, hr5, hr6, hr7⟩ :=
      ih (i + 1) (frame_step_state (env i) i bs s)
    simp only [run_frames]
    split_ifs <;>
      first
        | exact ⟨rfl, rfl, rfl, rfl, rfl, rfl, Nat.le_refl _⟩
        | exact ⟨hf1, hf2, hf3, hf4, hf5, hf6, hf7⟩
        | exact ⟨hr1.trans hf1, hr2.trans hf2, hr3.trans hf3, hr4.trans hf4,
                 hr5.trans hf5, hr6.trans hf6, le_trans hf7 hr7⟩

/-- The streaming cycle preserves mode and file, increments
`cycle_count` exactly when a file is loaded, and never decreases
`total_sent`. -/
theorem send_one_cycle_memory_efficient_cfg (env : Nat → FrameEnv)
    (s : SenderState) :
    (send_one_cycle_memory_efficient env s).1.use_memory_efficient =
      s.use_memory_efficient ∧
    (send_one_cycle_memory_efficient env s).1.hex_filename = s.hex_filename ∧
    (send_one_cycle_memory_efficient env s).1.file_lines = s.file_lines ∧
    (s.hex_filename ≠ "" →
      (send_one_cycle_memory_efficient env s).1.cycle_count =
        s.cycle_count + 1) ∧
    s.total_sent ≤ (send_one_cycle_memory_efficient env s).1.total_sent := by
  by_cases h : s.hex_filename = ""
  · simp [send_one_cycle_memory_efficient, h]
  · have hr := run_frames_cfg env (parse_file_generator s.file_lines) 0
      { s with cycle_count := s.cycle_count + 1 }
    simp only [send_one_cycle_memory_efficient, h]
    split_ifs <;> simp_all

/-- The materialized cycle preserves mode and file and never decreases
`total_sent`. -/
theorem send_one_cycle_traditional_cfg (env : Nat → FrameEnv)
    (s : SenderState) :
    (send_one_cycle_traditional env s).1.use_memory_efficient =
      s.use_memory_efficient ∧
    (send_one_cycle_traditional env s).1.hex_filename = s.hex_filename ∧
    (send_one_cycle_traditional env s).1.file_lines = s.file_lines ∧
    s.total_sent ≤ (send_one_cycle_traditional env s).1.total_sent := by
  by_cases h : s.hex_data = []
  · simp [send_one_cycle_traditional, h]
  · have hr := run_frames_cfg env s.hex_data 0
      { s with cycle_count := s.cycle_count + 1 }
    simp only [send_one_cycle_traditional, h]
    split_ifs <;> simp_all

/-- Dispatched cycle: preserves mode and file, never decreases
`total_sent`; in streaming mode the crash flag is always `false`
(the `try/except` of lines 292-380 swallows the exception). -/
theorem send_one_cycle_cfg (env : Nat → FrameEnv) (s : SenderState) :
    (send_one_cycle env s).1.use_memory_efficient = s.use_memory_efficient ∧
    (send_one_cycle env s).1.hex_filename = s.hex_filename ∧
    (send_one_cycle env s).1.file_lines = s.file_lines ∧
    s.total_sent ≤ (send_one_cycle env s).1.total_sent ∧
    (s.use_memory_efficient = true → (send_one_cycle env s).2.2 = false) := by
  by_cases h : s.use_memory_efficient = true
  · have := send_one_cycle_memory_efficient_cfg env s
    simp only [send_one_cycle, h]
    simp_all
  · have := send_one_cycle_traditional_cfg env s
    simp only [send_one_cycle]
    simp_all

/-- The continuous loop never decreases `total_sent`. -/
theorem continuous_send_loop_total_sent_mono (env : LoopEnv) (fuel k : Nat)
    (s : SenderState) :
    s.total_sent ≤ (continuous_send_loop env fuel k s).1.total_sent := by
  induction fuel generalizing k s with
  | zero => exact Nat.le_refl _
  | succ fuel ih =>
    obtain ⟨hc1, hc2, hc3, hc4, hc5⟩ := send_one_cycle_cfg (env.frameEnv k) s
    simp only [continuous_send_loop]
    split_ifs
    · exact Nat.le_refl _
    · exact ih (k + 1) s
    · exact hc4
    · exact le_trans hc4 (ih (k + 1) (send_one_cycle (env.frameEnv k) s).1)

/-- `total_sent` grows by exactly one on transport success and is left
alone on failure. -/
theorem frame_step_state_total_sent (e : FrameEnv) (i : Nat)
    (hex_bytes : List Nat) (s : SenderState) :
    (frame_step_state e i hex_bytes s).total_sent =
      s.total_sent + (if e.sendOk then 1 else 0) := by
  have hne : ¬(header_60_01_13_30 = header_60_01_13_20) := by decide
  cases hs : e.sendOk <;>
    by_cases h20 : hex_bytes.take 4 = header_60_01_13_20 <;>
    by_cases h30 : hex_bytes.take 4 = header_60_01_13_30 <;>
    simp [frame_step_state, record_last_send, hs, h20, h30, hne]

/-- When the control flags stay at running-and-not-paused and no
callback raises, a full pass adds to `total_sent` exactly the number of
frames whose transport send succeeded. -/
theorem run_frames_total_sent_count (env : Nat → FrameEnv)
    (frames : List (List Nat × Nat)) :
    ∀ (i : Nat) (s : SenderState),
    (∀ j, (env j).running = true ∧ (env j).paused = false ∧
      (env j).raiseProgress = false ∧ (env j).raiseDataSent = false) →
    (run_frames env frames i s).1.total_sent =
      s.total_sent + ((List.range' i frames.length).filter
        (fun j => (env j).sendOk)).length := by
  induction frames with
  | nil => intro i s _; simp [run_frames]
  | cons fr rest ih =>
    intro i s hact
    obtain ⟨bs, dm⟩ := fr
    obtain ⟨ha1, ha2, ha3, ha4⟩ := hact i
    have hr := ih (i + 1) (frame_step_state (env i) i bs s) hact
    simp only [run_frames, ha1, ha2, ha3, ha4, Bool.not_true, Bool.false_or,
      Bool.false_eq_true, if_false, List.length_cons]
    rw [List.range'_succ, hr, frame_step_state_total_sent]
    cases hs : (env i).sendOk <;> (simp [List.filter_cons, hs]; try omega)

/-- In streaming mode the loop thread never dies from an exception. -/
theorem continuous_send_loop_no_crash (env : LoopEnv) (fuel k : Nat)
    (s : SenderState) (h : s.use_memory_efficient = true) :
    (continuous_send_loop env fuel k s).2.2 = false := by
  induction fuel generalizing k s with
  | zero => rfl
  | succ fuel ih =>
    obtain ⟨hc1, hc2, hc3, hc4, hc5⟩ := send_one_cycle_cfg (env.frameEnv k) s
    simp only [continuous_send_loop]
    split_ifs
    · rfl
    · exact ih (k + 1) s h
    · exact hc5 h
    · exact ih (k + 1) (send_one_cycle (env.frameEnv k) s).1 (hc1.trans h)

/-! ## C6 -/

/-- C6: when the transport send of a frame fails (and the loop is
running, not paused, and no callback raises), the cycle continues with
the next frame from the post-frame state; `total_sent` is not
incremented; the outcome is still reported to the data-sent callback
with the `false` success flag; the class timestamp is recorded exactly
as it would be on success; and over a full uninterrupted pass,
`total_sent` grows by exactly the number of successful sends — it
undercounts by exactly the number of failures. -/
theorem c6_transport_failure (env : Nat → FrameEnv) (hex_bytes : List Nat)
    (dm i : Nat) (rest : List (List Nat × Nat)) (s : SenderState)
    (hrun : (env i).running = true) (hpause : (env i).paused = false)
    (hp1 : (env i).raiseProgress = false) (hp2 : (env i).raiseDataSent = false)
    (hfail : (env i).sendOk = false) :
    run_frames env ((hex_bytes, dm) :: rest) i s =
      ((run_frames env rest (i + 1)
          (frame_step_state (env i) i hex_bytes s)).1,
       Event.progress (i + 1) s.total_data_count s.cycle_count hex_bytes ::
         (if 0 < calculated_delay hex_bytes (env i).now
               s.last_60_01_13_20_time s.last_60_01_13_30_time
          then [Event.slept (calculated_delay hex_bytes (env i).now
                  s.last_60_01_13_20_time s.last_60_01_13_30_time)]
          else []) ++
         Event.dataSent hex_bytes false ::
           (run_frames env rest (i + 1)
             (frame_step_state (env i) i hex_bytes s)).2.1,
       (run_frames env rest (i + 1)
         (frame_step_state (env i) i hex_bytes s)).2.2) ∧
    (frame_step_state (env i) i hex_bytes s).total_sent = s.total_sent ∧
    (frame_step_state (env i) i hex_bytes s).last_60_01_13_20_time =
      (frame_step_state { env i with sendOk := true } i hex_bytes
        s).last_60_01_13_20_time ∧
    (frame_step_state (env i) i hex_bytes s).last_60_01_13_30_time =
      (frame_step_state { env i with sendOk := true } i hex_bytes
        s).last_60_01_13_30_time ∧
    ((∀ j, (env j).running = true ∧ (env j).paused = false ∧
        (env j).raiseProgress = false ∧ (env j).raiseDataSent = false) →
      (run_frames env ((hex_bytes, dm) :: rest) i s).1.total_sent =
        s.total_sent + ((List.range' i (rest.length + 1)).filter
          (fun j => (env j).sendOk)).length) := by
  have hne : ¬(header_60_01_13_30 = header_60_01_13_20) := by decide
  refine ⟨?_, ?_, ?_, ?_, ?_⟩
  · simp [run_frames, hrun, hpause, hp1, hp2, hfail]
  · rw [frame_step_state_total_sent, hfail]
    simp
  · by_cases h20 : hex_bytes.take 4 = header_60_01_13_20 <;>
      by_cases h30 : hex_bytes.take 4 = header_60_01_13_30 <;>
      simp [frame_step_state, record_last_send, hfail, h20, h30, hne]
  · by_cases h20 : hex_bytes.take 4 = header_60_01_13_20 <;>
      by_cases h30 : hex_bytes.take 4 = header_60_01_13_30 <;>
      simp [frame_step_state, record_last_send, hfail, h20, h30, hne]
  · intro hact
    have := run_frames_total_sent_count env ((hex_bytes, dm) :: rest) i s hact
    simpa using this

/-- C6 concrete environment: the transport fails on the first frame and
succeeds afterwards; no callback raises and the flags stay active. -/
def c6Env : Nat → FrameEnv := fun j =>
  { running := true, paused := false, now := 1, endTime := 1,
    sendOk := j != 0, raiseProgress := false, raiseDataSent := false }

/-- C6 concrete controller state with two loaded frames. -/
def c6State : SenderState :=
  { initState with hex_data := [([1], 10), ([2], 10)], hex_filename := "f",
                   is_running := true, total_data_count := 2 }

/-- C6 witness: `c6_transport_failure` at the two-frame state, failing
on frame 1: `total_sent` is untouched by the failed frame and ends one
below the frame count. -/
theorem c6_transport_failure_witness :
    (frame_step_state (c6Env 0) 0 [1] c6State).total_sent =
      c6State.total_sent ∧
    (run_frames c6Env [([1], 10), ([2], 10)] 0 c6State).1.total_sent =
      c6State.total_sent + ((List.range' 0 2).filter
        (fun j => (c6Env j).sendOk)).length :=
  ⟨(c6_transport_failure c6Env [1] 10 0 [([2], 10)] c6State
      rfl rfl rfl rfl rfl).2.1,
   by
    have h := (c6_transport_failure c6Env [1] 10 0 [([2], 10)] c6State
      rfl rfl rfl rfl rfl).2.2.2.2 (fun j => ⟨rfl, rfl, rfl, rfl⟩)
    simpa using h⟩

/-- In streaming mode with a loaded file and control flags left at
running-and-not-paused, every loop iteration attempts a cycle: the cycle
counter advances by exactly the fuel, exceptions notwithstanding. -/
theorem continuous_send_loop_cycle_count (env : LoopEnv) (fuel : Nat) :
    ∀ (k : Nat) (s : SenderState), s.use_memory_efficient = true →
    s.hex_filename ≠ "" → (∀ j, env.flags j = (true, false)) →
    (continuous_send_loop env fuel k s).1.cycle_count =
      s.cycle_count + fuel := by
  induction fuel with
  | zero => intro k s _ _ _; simp [continuous_send_loop]
  | succ fuel ih =>
    intro k s hm hf hflags
    obtain ⟨hc1, hc2, hc3, hc4, hc5⟩ := send_one_cycle_cfg (env.frameEnv k) s
    obtain ⟨hm1, hm2, hm3, hm4, hm5⟩ :=
      send_one_cycle_memory_efficient_cfg (env.frameEnv k) s
    have hcyc : (send_one_cycle (env.frameEnv k) s).1.cycle_count =
        s.cycle_count + 1 := by
      simp only [send_one_cycle, hm, if_true]
      exact hm4 hf
    have hl := ih (k + 1) (send_one_cycle (env.frameEnv k) s).1
      (hc1.trans hm) (by rw [hc2]; exact hf) hflags
    have hfl := hflags k
    simp only [continuous_send_loop]
    rw [hfl]
    simp [hc5 hm]
    rw [hl, hcyc]
    omega

/-! ## C7 -/

/-- C7 counterexample environment: every control-flag read says
running-and-not-paused, and the progress callback raises on every
frame. -/
def c7Env : LoopEnv :=
  { flags := fun _ => (true, false),
    frameEnv := fun _ _ =>
      { running := true, paused := false, now := 1, endTime := 1,
        sendOk := true, raiseProgress := true, raiseDataSent := false } }

/-- C7 counterexample state: materialized (traditional) mode with one
loaded frame. -/
def c7State : SenderState :=
  { initState with hex_data := [([1], 10)], hex_filename := "f",
                   is_running := true, total_data_count := 1 }

/-- C7 counterexample: in materialized mode a callback exception during
cycle 1 escapes `_send_one_cycle_traditional` (which has no handler) and
kills the loop thread: the crash flag is set, only one cycle was ever
attempted although the flags stayed at running-and-not-paused for three
loop iterations, and `is_running` is left `true` with nobody running. -/
theorem c7_counterexample :
    (continuous_send_loop c7Env 3 0 c7State).2.2 = true ∧
    (continuous_send_loop c7Env 3 0 c7State).1.cycle_count = 1 ∧
    (continuous_send_loop c7Env 3 0 c7State).1.is_running = true := by decide

/-- C7 amended: only in streaming (memory-efficient) mode is an
exception during a cycle confined to that cycle: the loop thread never
crashes, and with running-and-not-paused flags every loop iteration
attempts a fresh cycle (the cycle counter advances once per iteration),
exceptions notwithstanding. -/
theorem c7_streaming_exception_resilience :
    (∀ (env : LoopEnv) (fuel k : Nat) (s : SenderState),
      s.use_memory_efficient = true →
      (continuous_send_loop env fuel k s).2.2 = false) ∧
    (∀ (env : LoopEnv) (fuel k : Nat) (s : SenderState),
      s.use_memory_efficient = true → s.hex_filename ≠ "" →
      (∀ j, env.flags j = (true, false)) →
      (continuous_send_loop env fuel k s).1.cycle_count =
        s.cycle_count + fuel) :=
  ⟨fun env fuel k s h => continuous_send_loop_no_crash env fuel k s h,
   fun env fuel k s hm hf hfl =>
     continuous_send_loop_cycle_count env fuel k s hm hf hfl⟩

/-- C7 witness environment: streaming mode, progress callback raising on
every frame. -/
def c7wEnv : LoopEnv :=
  { flags := fun _ => (true, false),
    frameEnv := fun _ _ =>
      { running := true, paused := false, now := 1, endTime := 1,
        sendOk := true, raiseProgress := true, raiseDataSent := false } }

/-- C7 witness state: streaming mode with a one-frame file. -/
def c7wState : SenderState :=
  { initState with use_memory_efficient := true, hex_filename := "f",
                   file_lines := ["01"], is_running := true,
                   total_data_count := 1 }

/-- C7 amended witness: `c7_streaming_exception_resilience` at the
streaming state under the raising environment — no crash, and two loop
iterations attempt two cycles. -/
theorem c7_streaming_exception_resilience_witness :
    (continuous_send_loop c7wEnv 2 0 c7wState).2.2 = false ∧
    (continuous_send_loop c7wEnv 2 0 c7wState).1.cycle_count =
      c7wState.cycle_count + 2 :=
  ⟨c7_streaming_exception_resilience.1 c7wEnv 2 0 c7wState rfl,
   c7_streaming_exception_resilience.2 c7wEnv 2 0 c7wState rfl
     (by decide) (fun j => rfl)⟩

/-! ## C1 -/

/-- When the flags observed at a frame are running-and-not-paused, the
cycle body's first emitted event is the progress report for that frame. -/
theorem run_frames_cons_head (env : Nat → FrameEnv) (hex_bytes : List Nat)
    (dm i : Nat) (rest : List (List Nat × Nat)) (s : SenderState)
    (hrun : (env i).running = true) (hpause : (env i).paused = false) :
    ∃ tail, (run_frames env ((hex_bytes, dm) :: rest) i s).2.1 =
      Event.progress (i + 1) s.total_data_count s.cycle_count hex_bytes ::
        tail := by
  simp only [run_frames, hrun, hpause, Bool.not_true, Bool.false_or,
    Bool.false_eq_true, if_false]
  split_ifs <;> exact ⟨_, rfl⟩

/-- C1 counterexample environment: running throughout; the pause flag is
observed `true` at the check before frame 2 of the first cycle and at
the top of loop iteration 1, then `false` again (resume) from iteration
2 on. -/
def c1LoopEnv : LoopEnv :=
  { flags := fun k => match k with
      | 0 => (true, false)
      | 1 => (true, true)
      | 2 => (true, false)
      | _ => (false, false),
    frameEnv := fun k i => match k, i with
      | 0, 0 => { running := true, paused := false, now := 1, endTime := 1,
                  sendOk := true, raiseProgress := false,
                  raiseDataSent := false }
      | 0, _ => { running := true, paused := true, now := 1, endTime := 1,
                  sendOk := true, raiseProgress := false,
                  raiseDataSent := false }
      | _, _ => { running := true, paused := false, now := 1, endTime := 1,
                  sendOk := true, raiseProgress := false,
                  raiseDataSent := false } }

/-- C1 counterexample state: materialized mode with the two distinct
frames `[1]` and `[2]` loaded. -/
def c1State : SenderState :=
  { initState with hex_data := [([1], 10), ([2], 10)], hex_filename := "f",
                   is_running := true, total_data_count := 2 }

/-- C1 counterexample: `pause_sending` takes effect at the check before
frame 2 of cycle 1, and `resume_sending` before loop iteration 2.  The
claim demands that the run continue with frame `[2]` and never re-send
a frame; instead the pause breaks out of cycle 1 (frame `[2]` is never
sent in it), and the resumed iteration starts cycle 2 from the first
frame, so `[1]` is sent twice. -/
theorem c1_counterexample :
    (continuous_send_loop c1LoopEnv 4 0 c1State).2.1 =
      [Event.progress 1 2 1 [1], Event.slept 10, Event.dataSent [1] true,
       Event.cycleComplete 1,
       Event.progress 1 2 2 [1], Event.slept 10, Event.dataSent [1] true,
       Event.progress 2 2 2 [2], Event.slept 10, Event.dataSent [2] true,
       Event.cycleComplete 2] ∧
    (continuous_send_loop c1LoopEnv 4 0 c1State).2.1.count
      (Event.dataSent [1] true) = 2 := by decide

/-- C1 amended: a pause observed at the top of a loop iteration makes
that iteration a pure no-op — no state change (in particular the
per-class timestamps and `current_index` are untouched), no frame
consumed, no event emitted; but a pause observed *mid-cycle* breaks out
of the rest of the cycle, and the first un-paused loop iteration after
resuming starts a *new* cycle whose first processed frame is the first
frame of the loaded data — not the next unsent frame of the interrupted
cycle. -/
theorem c1_pause_idles_resume_restarts_cycle (env : LoopEnv) (fuel k : Nat)
    (s : SenderState) :
    (env.flags k = (true, true) →
      continuous_send_loop env (fuel + 1) k s =
        continuous_send_loop env fuel (k + 1) s) ∧
    (∀ hex_bytes dm rest, env.flags k = (true, false) →
      s.use_memory_efficient = false →
      s.hex_data = (hex_bytes, dm) :: rest →
      (env.frameEnv k 0).running = true →
      (env.frameEnv k 0).paused = false →
      ∃ tail, (continuous_send_loop env (fuel + 1) k s).2.1 =
        Event.progress 1 s.total_data_count (s.cycle_count + 1) hex_bytes ::
          tail) := by
  constructor
  · intro h
    simp [continuous_send_loop, h]
  · intro hex_bytes dm rest hfl hmem hdata hfr hfp
    obtain ⟨t, ht⟩ := run_frames_cons_head (env.frameEnv k) hex_bytes dm 0
      rest { s with cycle_count := s.cycle_count + 1 } hfr hfp
    simp [hdata, hmem] at ht
    simp [continuous_send_loop, hfl, send_one_cycle, hmem,
      send_one_cycle_traditional, hdata]
    split_ifs <;> simp [ht]

/-- C1 amended witness environments: one with the pause flag set at
every loop check, one never paused. -/
def c1wEnvPaused : LoopEnv :=
  { flags := fun _ => (true, true),
    frameEnv := fun _ _ =>
      { running := true, paused := false, now := 1, endTime := 1,
        sendOk := true, raiseProgress := false, raiseDataSent := false } }

/-- C1 amended witness environment without pause. -/
def c1wEnvActive : LoopEnv :=
  { flags := fun _ => (true, false),
    frameEnv := fun _ _ =>
      { running := true, paused := false, now := 1, endTime := 1,
        sendOk := true, raiseProgress := false, raiseDataSent := false } }

/-- C1 amended witness: `c1_pause_idles_resume_restarts_cycle` at the
two-frame state — the paused iteration is a no-op, and the un-paused
iteration opens cycle 1 at frame `[1]`. -/
theorem c1_pause_idles_resume_restarts_cycle_witness :
    continuous_send_loop c1wEnvPaused 1 0 c1State =
      continuous_send_loop c1wEnvPaused 0 1 c1State ∧
    ∃ tail, (continuous_send_loop c1wEnvActive 1 0 c1State).2.1 =
      Event.progress 1 c1State.total_data_count (c1State.cycle_count + 1)
        [1] :: tail :=
  ⟨(c1_pause_idles_resume_restarts_cycle c1wEnvPaused 0 0 c1State).1 rfl,
   (c1_pause_idles_resume_restarts_cycle c1wEnvActive 0 0 c1State).2
     [1] 10 [([2], 10)] rfl rfl rfl rfl rfl⟩

/-! ## C8 -/

/-- C8: `start_sending` fails up front — returning the state unchanged
(no frame sent, no cycle started, `is_running` untouched) — with the
not-loaded error when no frames are available (empty materialized data,
or zero counted frames in streaming mode), and with the not-connected
error when the transport reports not connected; and `load_hex_file`
reports a parse producing zero frames as a load failure (`false`),
while an input with at least one valid frame loads successfully even if
other blocks were silently skipped. -/
theorem c8_start_preconditions (s : SenderState) (connected continuous : Bool)
    (env : Nat → FrameEnv) (fn : String) (contents : List String)
    (memory_efficient : Bool) :
    (s.hex_data = [] → s.use_memory_efficient = false →
      start_sending s connected continuous env =
        (s, [], some StartErr.notLoaded)) ∧
    (s.use_memory_efficient = true → s.total_data_count = 0 →
      start_sending s connected continuous env =
        (s, [], some StartErr.notLoaded)) ∧
    (¬(s.hex_data = [] ∧ s.use_memory_efficient = false) →
      ¬(s.use_memory_efficient = true ∧ s.total_data_count = 0) →
      start_sending s false continuous env =
        (s, [], some StartErr.notConnected)) ∧
    (parse_file_generator contents = [] →
      (load_hex_file s fn contents memory_efficient).2 = false) ∧
    (parse_file_generator contents ≠ [] →
      (load_hex_file s fn contents memory_efficient).2 = true) := by
  refine ⟨?_, ?_, ?_, ?_, ?_⟩
  · intro h1 h2
    simp [start_sending, h1, h2]
  · intro h1 h2
    simp [start_sending, h1, h2]
  · intro h1 h2
    simp [start_sending, h1, h2]
  · intro h
    cases memory_efficient <;>
      simp [load_hex_file, parse_file_eq_generator, h]
  · intro h
    cases memory_efficient <;>
      simp [load_hex_file, parse_file_eq_generator, List.length_eq_zero, h]

/-- C8 witness: a streaming-mode state with zero counted frames, a
loaded-but-disconnected state, a file with no valid frame, and a file
whose first block is skipped but whose second block yields a frame. -/
theorem c8_start_preconditions_witness :
    start_sending initState true true (fun _ =>
      { running := true, paused := false, now := 1, endTime := 1,
        sendOk := true, raiseProgress := false, raiseDataSent := false }) =
      (initState, [], some StartErr.notLoaded) ∧
    start_sending { initState with use_memory_efficient := true } true true
      (fun _ =>
        { running := true, paused := false, now := 1, endTime := 1,
          sendOk := true, raiseProgress := false, raiseDataSent := false }) =
      ({ initState with use_memory_efficient := true }, [],
        some StartErr.notLoaded) ∧
    start_sending { initState with hex_data := [([1], 10)],
                                   total_data_count := 1 } false true
      (fun _ =>
        { running := true, paused := false, now := 1, endTime := 1,
          sendOk := true, raiseProgress := false, raiseDataSent := false }) =
      ({ initState with hex_data := [([1], 10)], total_data_count := 1 },
        [], some StartErr.notConnected) ∧
    (load_hex_file initState "f" ["zz"] false).2 = false ∧
    (load_hex_file initState "f" ["zzz", "", "01"] true).2 = true := by
  refine ⟨?_, ?_, ?_, ?_, ?_⟩
  · exact (c8_start_preconditions initState true true _ "f" [] false).1
      rfl rfl
  · exact (c8_start_preconditions _ true true _ "f" [] false).2.1 rfl rfl
  · exact (c8_start_preconditions _ false true _ "f" [] false).2.2.1
      (by decide) (by decide)
  · exact (c8_start_preconditions initState true true (fun _ =>
      { running := true, paused := false, now := 1, endTime := 1,
        sendOk := true, raiseProgress := false, raiseDataSent := false })
      "f" ["zz"] false).2.2.2.1 (by decide)
  · exact (c8_start_preconditions initState true true (fun _ =>
      { running := true, paused := false, now := 1, endTime := 1,
        sendOk := true, raiseProgress := false, raiseDataSent := false })
      "f" ["zzz", "", "01"] true).2.2.2.2 (by decide)

/-! ## C9 -/

/-- C9 counterexample state: a controller that has already recorded five
successful sends. -/
def c9State : SenderState := { initState with total_sent := 5 }

/-- C9 counterexample: `load_hex_file` resets `total_sent` to 0, so a
load after five successful sends *decreases* it from 5 to 0 — yet the
claim lists loading among the operations that never decrease
`total_sent`. -/
theorem c9_counterexample :
    c9State.total_sent = 5 ∧
    (load_hex_file c9State "g" ["01"] false).1.total_sent = 0 := by decide

/-- C9 amended: `total_sent` never decreases under the continuous loop,
a dispatched cycle, `stop_sending`, `pause_sending`, `resume_sending`,
or `start_sending`; `load_hex_file`, however, resets it to 0 (it counts
successful sends since the last load, not across the process
lifetime). -/
theorem c9_total_sent_monotone_except_load :
    (∀ (env : LoopEnv) (fuel k : Nat) (s : SenderState),
      s.total_sent ≤ (continuous_send_loop env fuel k s).1.total_sent) ∧
    (∀ (env : Nat → FrameEnv) (s : SenderState),
      s.total_sent ≤ (send_one_cycle env s).1.total_sent) ∧
    (∀ s : SenderState, (stop_sending s).total_sent = s.total_sent) ∧
    (∀ s : SenderState, (pause_sending s).total_sent = s.total_sent) ∧
    (∀ s : SenderState, (resume_sending s).total_sent = s.total_sent) ∧
    (∀ (s : SenderState) (connected continuous : Bool)
        (env : Nat → FrameEnv),
      s.total_sent ≤ (start_sending s connected continuous env).1.total_sent) ∧
    (∀ (s : SenderState) (fn : String) (contents : List String)
        (memory_efficient : Bool),
      (load_hex_file s fn contents memory_efficient).1.total_sent = 0) := by
  refine ⟨?_, ?_, fun s => rfl, fun s => rfl, fun s => rfl, ?_, ?_⟩
  · exact fun env fuel k s => continuous_send_loop_total_sent_mono env fuel k s
  · exact fun env s => (send_one_cycle_cfg env s).2.2.2.1
  · intro s connected continuous env
    obtain ⟨g1, g2, g3, g4, g5⟩ :=
      send_one_cycle_cfg env { s with is_running := true, is_paused := false }
    simp only [start_sending]
    split_ifs <;> first | exact Nat.le_refl _ | exact g4
  · intro s fn contents memory_efficient
    simp only [load_hex_file]
    split_ifs <;> rfl

/-! ## C10 -/

/-- C10: every `load_hex_file` call resets `current_index`,
`cycle_count`, and `total_sent` to 0 (in both load modes, and regardless
of the load outcome) while leaving both per-class last-send timestamps
untouched, so pacing deficits computed against sends of the previously
loaded file carry over into the new session: the wait computation sees
the very same timestamps. -/
theorem c10_load_resets_counters_keeps_timestamps (s : SenderState)
    (fn : String) (contents : List String) (memory_efficient : Bool) :
    (load_hex_file s fn contents memory_efficient).1.current_index = 0 ∧
    (load_hex_file s fn contents memory_efficient).1.cycle_count = 0 ∧
    (load_hex_file s fn contents memory_efficient).1.total_sent = 0 ∧
    (load_hex_file s fn contents memory_efficient).1.last_60_01_13_20_time =
      s.last_60_01_13_20_time ∧
    (load_hex_file s fn contents memory_efficient).1.last_60_01_13_30_time =
      s.last_60_01_13_30_time ∧
    (∀ (hex_bytes : List Nat) (now : ℚ),
      calculated_delay hex_bytes now
        (load_hex_file s fn contents memory_efficient).1.last_60_01_13_20_time
        (load_hex_file s fn contents memory_efficient).1.last_60_01_13_30_time
        =
      calculated_delay hex_bytes now s.last_60_01_13_20_time
        s.last_60_01_13_30_time) := by
  simp only [load_hex_file]
  split_ifs <;> exact ⟨rfl, rfl, rfl, rfl, rfl, fun _ _ => rfl⟩

end TrainSim
